import Mathlib

/-!
Formal model of the catalog/content store of the IRIS project and of the
database notebooks that operate on it.

The two persisted relations come from the `init-schema.sql` DDL (embedded in
`src/alter_schema.sql`): `apg_catalog` (one row per logical document) and
`apg_content` (one row per ordered section of a document).  The operations
modelled here are the ones visible in the provided sources:

* the destructive clear-and-reload of both tables performed by the database
  reset notebook (`src/unnamed/part_001`): a `TRUNCATE TABLE apg_catalog,
  apg_content RESTART IDENTITY CASCADE` cell, a catalog-insert cell and a
  content-insert cell, each ending in its own `conn.commit()`;
* the permission probes of `src/notebooks/test_db_permissions.ipynb`
  (`test_alter_table_permission`, `check_pgvector_extension`,
  `test_vector_column_creation`), which open a dedicated connection, attempt
  a schema change, and unconditionally roll back in a `finally` block;
* the CAPM review queries of `src/notebooks/capm_catalog_review.ipynb`
  (filter by `document_source`, `ORDER BY document_name, section_id`);
* the connection flows of both notebooks (single connection attempt,
  user-visible failure message, no retry).

PostgreSQL transaction semantics are made explicit: a connection carries a
committed state and a pending state; `execute` modifies only the pending
state, `commit` publishes it, `rollback` discards it, and closing without a
commit also discards it.  `SERIAL` id assignment draws from per-table
sequence counters; `nextval` calls survive a transaction abort, while
`TRUNCATE ... RESTART IDENTITY` resets both counters to 1.
-/

namespace IrisDb

/-- A row of `apg_catalog` as produced by the insert of the reset notebook: the
`SERIAL` id plus the nine columns named in the `INSERT INTO apg_catalog`
statement.  Timestamp columns are modelled by their ISO text; columns that
the insert leaves NULL (`created_at` default, `file_size`, and the
`document_usage` / `file_link` columns added by `alter_schema.sql`) carry no
information relevant to any modelled operation and are tracked only through
the column-name list of the table in `DBState`. -/
structure CatalogRow where
  id : Nat
  document_source : String
  document_type : String
  document_name : String
  document_description : String
  date_created : String
  date_last_modified : String
  file_name : String
  file_type : String
  file_path : String
  deriving DecidableEq, Repr

/-- The tuple shape of one entry of the `catalog_records` list of the notebook:
the nine values bound by the `INSERT INTO apg_catalog` statement. -/
structure CatalogInsert where
  document_source : String
  document_type : String
  document_name : String
  document_description : String
  date_created : String
  date_last_modified : String
  file_name : String
  file_type : String
  file_path : String
  deriving DecidableEq, Repr

/-- A row of `apg_content`: the `SERIAL` id plus the seven columns named in
the `INSERT INTO apg_content` statement.  `section_id` is `INTEGER`;
`section_name` and `section_summary` are nullable. -/
structure ContentRow where
  id : Nat
  document_source : String
  document_type : String
  document_name : String
  section_id : Int
  section_name : Option String
  section_summary : Option String
  section_content : String
  deriving DecidableEq, Repr

/-- The tuple shape of one entry of the `content_records` list of the notebook. -/
structure ContentInsert where
  document_source : String
  document_type : String
  document_name : String
  section_id : Int
  section_name : Option String
  section_summary : Option String
  section_content : String
  deriving DecidableEq, Repr

/-- Committed database state: the two tables, their column-name sets (for
the schema probes), the two `SERIAL` sequence counters (next id to assign),
and the `pg_available_extensions` row for the name `vector` —
`none` when the extension is unavailable on the server, `some iv` when it is
available with `installed_version = iv` (`iv = none` meaning available but
not installed). -/
structure DBState where
  catalog : List CatalogRow
  content : List ContentRow
  catalogColumns : List String
  contentColumns : List String
  catSeq : Nat
  contSeq : Nat
  vectorExtension : Option (Option String)
  deriving DecidableEq, Repr

/-- The `apg_catalog` columns of the `CREATE TABLE` DDL. -/
def initCatalogColumns : List String :=
  ["id", "created_at", "document_source", "document_type", "document_name",
   "document_description", "date_created", "date_last_modified", "file_name",
   "file_type", "file_size", "file_path"]

/-- The `apg_content` columns of the `CREATE TABLE` DDL. -/
def initContentColumns : List String :=
  ["id", "created_at", "document_source", "document_type", "document_name",
   "section_id", "section_name", "section_summary", "section_content"]

/-- The `catalog_records` fixture of the reset notebook, transcribed from
`src/unnamed/part_001` (three documents of source `internal_wiki`). -/
def catalog_records : List CatalogInsert :=
  [{ document_source := "internal_wiki",
     document_type := "ifrs_standard",
     document_name := "IFRS_15_Revenue",
     document_description := "IFRS 15 Revenue from Contracts with Customers: Addresses the principles for recognizing revenue from contracts with customers. Establishes a five-step model for revenue recognition.",
     date_created := "2025-03-27 13:52:12-04:00",
     date_last_modified := "2025-03-27 13:52:12-04:00",
     file_name := "IFRS_15_Revenue.md",
     file_type := ".md",
     file_path := "//wiki/finance/standards/" },
   { document_source := "internal_wiki",
     document_type := "ifrs_standard",
     document_name := "IAS_12_IncomeTaxes",
     document_description := "IAS 12 Income Taxes: Prescribes the accounting treatment for income taxes. Addresses the current and future tax consequences of transactions and events.",
     date_created := "2025-03-27 13:52:12-04:00",
     date_last_modified := "2025-03-27 13:52:12-04:00",
     file_name := "IAS_12_IncomeTaxes.md",
     file_type := ".md",
     file_path := "//wiki/finance/standards/" },
   { document_source := "internal_wiki",
     document_type := "internal_memo",
     document_name := "Q1_2025_Financial_Analysis",
     document_description := "Internal analysis of Q1 2025 financial performance across business units. Includes variance analysis and forecasting adjustments.",
     date_created := "2025-03-27 13:52:12-04:00",
     date_last_modified := "2025-03-27 13:52:12-04:00",
     file_name := "Q1_2025_Financial_Analysis.md",
     file_type := ".md",
     file_path := "//wiki/finance/memos/" }]

/-- The `content_records` fixture of the reset notebook, transcribed from
`src/unnamed/part_001` (six sections across the three documents). -/
def content_records : List ContentInsert :=
  [{ document_source := "internal_wiki", document_type := "ifrs_standard",
     document_name := "IFRS_15_Revenue", section_id := 0,
     section_name := none, section_summary := none,
     section_content := "# Record Information\n\n- **Year:** 15\n- **Published:** 2014\n\n# Standards and Classification\n\n- **IFRS Standard 15**: Revenue from Contracts with Customers\n\nThis standard establishes a comprehensive framework for determining when to recognize revenue and how much revenue to recognize. The core principle is that an entity should recognize revenue to depict the transfer of promised goods or services to customers in an amount that reflects the consideration to which the entity expects to be entitled in exchange for those goods or services." },
   { document_source := "internal_wiki", document_type := "ifrs_standard",
     document_name := "IFRS_15_Revenue", section_id := 1,
     section_name := some "Five-Step Model",
     section_summary := some "The five-step model for revenue recognition under IFRS 15",
     section_content := "# Five-Step Model for Revenue Recognition\n\n1. **Identify the contract(s) with a customer**\n2. **Identify the performance obligations in the contract**\n3. **Determine the transaction price**\n4. **Allocate the transaction price to the performance obligations**\n5. **Recognize revenue when (or as) the entity satisfies a performance obligation**\n\nThis model applies to all contracts with customers except leases, insurance contracts, financial instruments, and certain non-monetary exchanges." },
   { document_source := "internal_wiki", document_type := "ifrs_standard",
     document_name := "IAS_12_IncomeTaxes", section_id := 0,
     section_name := none, section_summary := none,
     section_content := "# Record Information\n\n- **Year:** 12\n- **Revised:** 2023\n\n# Standards and Classification\n\n- **IAS 12**: Income Taxes\n\nThis standard prescribes the accounting treatment for income taxes. It addresses both current tax and deferred tax consequences." },
   { document_source := "internal_wiki", document_type := "internal_memo",
     document_name := "Q1_2025_Financial_Analysis", section_id := 0,
     section_name := none, section_summary := none,
     section_content := "# Record Information\n\n- **Quarter:** Q1\n- **Year:** 2025\n- **Department:** Finance\n\n# Executive Summary\n\nThis document presents the financial analysis for Q1 2025. Key performance indicators show a 12% increase in revenue compared to the previous quarter, with operating margin improving by 2.5 percentage points." },
   { document_source := "internal_wiki", document_type := "internal_memo",
     document_name := "Q1_2025_Financial_Analysis", section_id := 1,
     section_name := some "Revenue Analysis",
     section_summary := some "Breakdown of Q1 2025 revenue by business unit and product line",
     section_content := "# Revenue Analysis\n\n## Business Unit Performance\n- **North America**: $245.6M (+15.2% YoY)\n- **EMEA**: $198.3M (+8.7% YoY)\n- **APAC**: $156.9M (+22.3% YoY)\n\n## Product Line Performance\n- **Enterprise Solutions**: $312.4M (+18.1% YoY)\n- **Consumer Products**: $189.5M (+5.3% YoY)\n- **Professional Services**: $98.9M (+12.8% YoY)" },
   { document_source := "internal_wiki", document_type := "internal_memo",
     document_name := "Q1_2025_Financial_Analysis", section_id := 2,
     section_name := some "Cost Structure",
     section_summary := some "Analysis of Q1 2025 cost structure and efficiency metrics",
     section_content := "# Cost Structure Analysis\n\n## Operating Expenses\n- **Cost of Goods Sold**: $285.3M (47.5% of revenue)\n- **R&D**: $84.7M (14.1% of revenue)\n- **Sales & Marketing**: $95.2M (15.8% of revenue)\n- **G&A**: $42.6M (7.1% of revenue)\n\n## Efficiency Metrics\n- **Gross Margin**: 52.5% (+1.8pp YoY)\n- **Operating Margin**: 15.5% (+2.5pp YoY)\n- **Net Margin**: 12.3% (+1.9pp YoY)" }]

/-- The committed effect of the clearing cell of the reset notebook:
`TRUNCATE TABLE apg_catalog, apg_content RESTART IDENTITY CASCADE;` followed
by `conn.commit()`.  Both tables are emptied and both `SERIAL` sequences
restart at 1; the schema (column sets) and the extension state are untouched. -/
def truncateRestartIdentityCascade (s : DBState) : DBState :=
  { s with catalog := [], content := [], catSeq := 1, contSeq := 1 }

/-- One `INSERT INTO apg_catalog` execution: the row receives the next
`SERIAL` id and is appended; the sequence advances. -/
def insertCatalog (s : DBState) (r : CatalogInsert) : DBState :=
  { s with
    catalog := s.catalog ++
      [{ id := s.catSeq,
         document_source := r.document_source,
         document_type := r.document_type,
         document_name := r.document_name,
         document_description := r.document_description,
         date_created := r.date_created,
         date_last_modified := r.date_last_modified,
         file_name := r.file_name,
         file_type := r.file_type,
         file_path := r.file_path }],
    catSeq := s.catSeq + 1 }

/-- One `INSERT INTO apg_content` execution. -/
def insertContent (s : DBState) (r : ContentInsert) : DBState :=
  { s with
    content := s.content ++
      [{ id := s.contSeq,
         document_source := r.document_source,
         document_type := r.document_type,
         document_name := r.document_name,
         section_id := r.section_id,
         section_name := r.section_name,
         section_summary := r.section_summary,
         section_content := r.section_content }],
    contSeq := s.contSeq + 1 }

/-- Where, if anywhere, an execution of the reset notebook raises.  The
reload has three separately committed transactions (truncate cell, catalog
cell, content cell); a failure during an insert cell means the exception is
raised after `k` of the `cur.execute` calls of that cell have succeeded and
before the `conn.commit()` of the cell runs.  An uncaught exception halts the
notebook run, so later cells do not execute. -/
inductive FailPoint where
  | noFailure : FailPoint
  | duringCatalogInsert (k : Nat) : FailPoint
  | duringContentInsert (k : Nat) : FailPoint
  deriving DecidableEq, Repr

/-- Whether the fail point makes the reload fail mid-load. -/
def FailPoint.fails : FailPoint → Bool
  | .noFailure => false
  | .duringCatalogInsert _ => true
  | .duringContentInsert _ => true

/-- Transaction abort of an insert cell: the pending (uncommitted) rows are
discarded and the committed state stands, except that the `SERIAL`
`nextval` calls already made by the partial insert are not undone. -/
def abortPending (committed uncommitted_ : DBState) : DBState :=
  { committed with catSeq := uncommitted_.catSeq, contSeq := uncommitted_.contSeq }

/-- The clear-and-reload run of the reset notebook, starting from committed state `prior`
with fail point `fp`.  Returns the final committed state and whether the
reload completed.  Cell 1 truncates and commits; cell 2 inserts
`catalog_records` and commits; cell 3 inserts `content_records` and
commits.  A failure inside an insert cell aborts only the transaction of that cell — everything committed by earlier cells stands. -/
def runReload (prior : DBState) (fp : FailPoint) : DBState × Bool :=
  let s0 := truncateRestartIdentityCascade prior
  match fp with
  | .duringCatalogInsert k =>
      (abortPending s0 ((catalog_records.take k).foldl insertCatalog s0), false)
  | .duringContentInsert k =>
      let s1 := catalog_records.foldl insertCatalog s0
      (abortPending s1 ((content_records.take k).foldl insertContent s1), false)
  | .noFailure =>
      let s1 := catalog_records.foldl insertCatalog s0
      (content_records.foldl insertContent s1, true)

/-- The `apg_catalog` rows after a completed reload: the fixture records
with `SERIAL` ids 1, 2, 3 in insertion order. -/
def loadedCatalogRows : List CatalogRow :=
  (List.enumFrom 1 catalog_records).map fun p =>
    { id := p.1,
      document_source := p.2.document_source,
      document_type := p.2.document_type,
      document_name := p.2.document_name,
      document_description := p.2.document_description,
      date_created := p.2.date_created,
      date_last_modified := p.2.date_last_modified,
      file_name := p.2.file_name,
      file_type := p.2.file_type,
      file_path := p.2.file_path }

/-- The `apg_content` rows after a completed reload: the fixture records
with `SERIAL` ids 1 through 6 in insertion order. -/
def loadedContentRows : List ContentRow :=
  (List.enumFrom 1 content_records).map fun p =>
    { id := p.1,
      document_source := p.2.document_source,
      document_type := p.2.document_type,
      document_name := p.2.document_name,
      section_id := p.2.section_id,
      section_name := p.2.section_name,
      section_summary := p.2.section_summary,
      section_content := p.2.section_content }

/-!  Connections and the permission probes of `test_db_permissions.ipynb`. -/

/-- A psycopg2 connection in transaction mode (`autocommit = False`):
`committed` is the database state visible to everyone else, `pending` the
state including the uncommitted work of this transaction. -/
structure PgConnection where
  committed : DBState
  pending : DBState
  deriving DecidableEq, Repr

/-- Model of `psycopg2.connect(**db_params)` with `autocommit = False`. -/
def pgConnect (db : DBState) : PgConnection := ⟨db, db⟩

/-- Model of `conn.rollback()`: the pending work is discarded. -/
def pgRollback (c : PgConnection) : PgConnection := { c with pending := c.committed }

/-- Model of `conn.close()` without a commit: only the committed state survives. -/
def pgClose (c : PgConnection) : DBState := c.committed

/-- Effect of `ALTER TABLE apg_catalog ADD COLUMN col ...` on a state. -/
def addCatalogColumn (db : DBState) (col : String) : DBState :=
  { db with catalogColumns := db.catalogColumns ++ [col] }

/-- Outcome of a probe cell: the committed database state after the cell,
the lines it printed, and whether the probed `ALTER TABLE` statement was
ever issued. -/
structure ProbeResult where
  db : DBState
  messages : List String
  alterIssued : Bool
  deriving DecidableEq, Repr

/-- Translation of `test_alter_table_permission` from `test_db_permissions.ipynb`: open a
dedicated connection, try `ALTER TABLE apg_catalog ADD COLUMN
_test_permission_column TEXT` (which succeeds only when the user may alter
tables, modelled by `canAlter`), and in the `finally` block roll back and
close.  The probed statement is always issued on the fresh connection. -/
def test_alter_table_permission (db : DBState) (canAlter : Bool) : ProbeResult :=
  let msgs0 := ["Testing ALTER TABLE permission...",
    "NOTE: No actual changes will be made - we\u0027ll roll back the transaction."]
  let test_conn := pgConnect db
  let step :=
    if canAlter then
      ({ test_conn with
         pending := addCatalogColumn test_conn.pending "_test_permission_column" },
       ["\n✅ ALTER TABLE permission test successful! You have permission to alter tables."])
    else
      (test_conn,
       ["\n❌ ALTER TABLE permission test failed: <error>",
        "You may not have permission to alter tables."])
  let closed := pgClose (pgRollback step.1)
  { db := closed,
    messages := msgs0 ++ step.2 ++
      ["\nTransaction rolled back - no changes were made to the database."],
    alterIssued := true }

/-- Python truthiness test `not result or not result[0]` of the pre-check in
`test_vector_column_creation`, where `result` is the fetched
`installed_version` row for the `vector` extension: true when the extension
row is absent, when `installed_version` is NULL, or when it is the empty
string. -/
def vectorNotInstalled (db : DBState) : Bool :=
  match db.vectorExtension with
  | none => true
  | some none => true
  | some (some v) => v.isEmpty

/-- Translation of `test_vector_column_creation` from `test_db_permissions.ipynb`: first
query `installed_version` for the `vector` extension on the main
connection; if the extension is missing or not installed, warn and return
without issuing any `ALTER TABLE`.  Otherwise open a dedicated connection,
issue `ALTER TABLE apg_catalog ADD COLUMN _test_vector_column
vector(2000)` (succeeding only when `canAlter`), and in the `finally` block
roll back and close. -/
def test_vector_column_creation (db : DBState) (canAlter : Bool) : ProbeResult :=
  let msgs0 := ["Testing vector column creation...",
    "NOTE: No actual changes will be made - we\u0027ll roll back the transaction."]
  if vectorNotInstalled db then
    { db := db,
      messages := msgs0 ++
        ["\n❓ Cannot test vector column creation because the vector extension is not installed.",
         "You\u0027ll need to install the extension first with: CREATE EXTENSION vector;"],
      alterIssued := false }
  else
    let test_conn := pgConnect db
    let step :=
      if canAlter then
        ({ test_conn with
           pending := addCatalogColumn test_conn.pending "_test_vector_column" },
         ["\n✅ Vector column creation test successful!",
          "You can create vector columns in your database."])
      else
        (test_conn, ["\n❌ Vector column creation test failed: <error>"])
    let closed := pgClose (pgRollback step.1)
    { db := closed,
      messages := msgs0 ++ step.2 ++
        ["\nTransaction rolled back - no changes were made to the database."],
      alterIssued := true }

/-!  The CAPM review queries of `capm_catalog_review.ipynb`. -/

/-- The projection selected by `content_summary_query`:
`SELECT document_name, section_id, section_name, section_summary`. -/
structure ContentSummary where
  document_name : String
  section_id : Int
  section_name : Option String
  section_summary : Option String
  deriving DecidableEq, Repr

/-- Projection of an `apg_content` row onto the selected columns. -/
def contentSummaryOfRow (c : ContentRow) : ContentSummary :=
  { document_name := c.document_name,
    section_id := c.section_id,
    section_name := c.section_name,
    section_summary := c.section_summary }

/-- The `ORDER BY document_name, section_id` key as a boolean order on the
projected rows. -/
def contentSummaryLE (a b : ContentSummary) : Bool :=
  decide (a.document_name < b.document_name) ||
    (a.document_name == b.document_name && decide (a.section_id ≤ b.section_id))

/-- Denotation of the `content_summary_query` of the review notebook:
`SELECT document_name, section_id, section_name, section_summary FROM
apg_content WHERE document_source matches internal_capm ORDER BY document_name,
section_id`.  The `WHERE` clause filters, the `SELECT` clause projects, and
`ORDER BY` returns some reordering of the matching rows that is sorted by
the key — realised here by a merge sort. -/
def content_summary_query (db : DBState) : List ContentSummary :=
  ((db.content.filter fun c => c.document_source == "internal_capm").map
    contentSummaryOfRow).mergeSort contentSummaryLE

/-!  Connection parameter resolution and the connection flows. -/

/-- Connection parameters as returned by `get_db_params`. -/
structure DbParams where
  host : String
  port : Nat
  dbname : String
  user : String
  password : String
  deriving DecidableEq, Repr

/-- Modelled from the spec: `iris.src.initial_setup.db_config.get_db_params`
is imported by both notebooks but its module is not among the provided
sources.  Spec section 6 and the credentials block of the README give the
documented resolution for the "local" environment key (host `localhost`,
port `5432`, database `maven-finance`, user `iris_dev`, empty password),
matching the recorded notebook output "Connecting to maven-finance at
localhost:5432 as user iris_dev...".  Resolution for other keys is not
documented and is modelled as absent. -/
def get_db_params (env : String) : Option DbParams :=
  if env == "local" then
    some { host := "localhost", port := 5432, dbname := "maven-finance",
           user := "iris_dev", password := "" }
  else
    none

/-- Behaviour of the single `connect_to_db` call made by a notebook cell.
Modelled from the spec: `connect_to_db` itself is not among the provided
sources; its callers show that it either hands back a connection or signals
failure (returning a falsy value, or raising, which the CAPM cell catches). -/
inductive ConnectOutcome where
  | connected : ConnectOutcome
  | returnedNone : ConnectOutcome
  | raised (err : String) : ConnectOutcome
  deriving DecidableEq, Repr

/-- What one notebook cell did: how many times it called `connect_to_db`
(or `psycopg2.connect`), what it printed, and how many data queries it ran. -/
structure RunLog where
  connectAttempts : Nat
  messages : List String
  queriesExecuted : Nat
  deriving DecidableEq, Repr

/-- The connection-and-fetch cell of `capm_catalog_review.ipynb`: inside
`try`, print the connecting line, call `connect_to_db` once, and either run
the two queries (connection truthy), print "Database connection failed."
(falsy), or land in the `except` branch printing the error; the `finally`
block closes the connection when one was obtained.  No branch re-attempts
the connection. -/
def capm_review_run (outcome : ConnectOutcome) : RunLog :=
  let connecting := "Connecting to database: maven-finance on localhost:5432 as iris_dev (Environment: local)"
  match outcome with
  | .connected =>
      { connectAttempts := 1,
        messages := [connecting, "Connection successful.",
          "Fetching CAPM catalog data...", "Fetching CAPM content summaries...",
          "Database connection closed."],
        queriesExecuted := 2 }
  | .returnedNone =>
      { connectAttempts := 1,
        messages := [connecting, "Database connection failed."],
        queriesExecuted := 0 }
  | .raised err =>
      { connectAttempts := 1,
        messages := [connecting,
          "Error while connecting to or querying PostgreSQL: " ++ err],
        queriesExecuted := 0 }

/-- The connection cell of `test_db_permissions.ipynb`: print the
connecting line, call `connect_to_db("local")` once, then print the success
line or "Failed to connect to database.".  No retry in either branch. -/
def test_db_connect_run (success : Bool) : RunLog :=
  let connecting := "Connecting to maven-finance at localhost:5432 as user iris_dev..."
  if success then
    { connectAttempts := 1,
      messages := [connecting, "Connected successfully! 🎉"],
      queriesExecuted := 0 }
  else
    { connectAttempts := 1,
      messages := [connecting, "Failed to connect to database."],
      queriesExecuted := 0 }

/-- The `section_id` values, in table order, of the content rows of one
document (one (`document_source`, `document_type`, `document_name`)
triple). -/
def sectionIds (s : DBState) (src typ name : String) : List Int :=
  (s.content.filter fun c =>
      c.document_source == src && c.document_type == typ &&
        c.document_name == name).map
    fun c => c.section_id

/-- A stale catalog row for the concrete prior database state used to
instantiate the reload and probe theorems at a specific input. -/
def examplePriorCatalogRow : CatalogRow :=
  { id := 1, document_source := "internal_capm", document_type := "capm",
    document_name := "Old_Doc", document_description := "stale entry",
    date_created := "2025-01-01 00:00:00-04:00",
    date_last_modified := "2025-01-01 00:00:00-04:00",
    file_name := "Old_Doc.md", file_type := ".md",
    file_path := "//wiki/old/" }

/-- The single stale content row of `examplePrior`. -/
def examplePriorContentRow : ContentRow :=
  { id := 1, document_source := "internal_capm", document_type := "capm",
    document_name := "Old_Doc", section_id := 0, section_name := none,
    section_summary := none, section_content := "stale body" }

/-- A concrete prior database state built from the stale rows above. -/
def examplePrior : DBState :=
  { catalog := [examplePriorCatalogRow],
    content := [examplePriorContentRow],
    catalogColumns := initCatalogColumns,
    contentColumns := initContentColumns,
    catSeq := 2, contSeq := 2, vectorExtension := none }

/-- After a completed reload, the catalog table holds exactly the fixture
rows with ids 1, 2, 3 — whatever the prior state was. -/
theorem runReload_catalog (prior : DBState) :
    (runReload prior FailPoint.noFailure).1.catalog = loadedCatalogRows := rfl

/-- After a completed reload, the content table holds exactly the fixture
rows with ids 1 through 6 — whatever the prior state was. -/
theorem runReload_content (prior : DBState) :
    (runReload prior FailPoint.noFailure).1.content = loadedContentRows := rfl

/-- C1, counterexample.  The claim says a reload that fails mid-load leaves
the tables as they were because an explicit rollback restores the prior
state.  The reset notebook contains no rollback: the `TRUNCATE` cell and
the catalog-insert cell each commit on their own before the content-insert
cell runs.  Concretely: starting from `examplePrior` (1 catalog row,
1 content row), an execution that fails after 3 content inserts is a
failing execution whose final committed state is not the prior state — the
catalog already holds the 3 fixture rows and the content table is empty. -/
theorem reload_failure_not_restored_counterexample :
    (FailPoint.duringContentInsert 3).fails = true ∧
    (runReload examplePrior (FailPoint.duringContentInsert 3)).2 = false ∧
    (runReload examplePrior (FailPoint.duringContentInsert 3)).1 ≠ examplePrior ∧
    (runReload examplePrior (FailPoint.duringContentInsert 3)).1.catalog.length = 3 ∧
    (runReload examplePrior (FailPoint.duringContentInsert 3)).1.content.length = 0 := by
  refine ⟨rfl, rfl, ?_, rfl, rfl⟩
  decide

/-- C1, amended.  The reload is not transactional as a whole and contains
no explicit rollback; what holds is per-cell atomicity from the implicit
abort of an uncommitted transaction: in every execution that fails
mid-load, the committed content table is empty, and the committed catalog
table is either empty (failure during the catalog cell) or holds exactly
the 3 fixture rows (failure during the content cell) — never a partially
inserted table, but not the prior state either, since the committed
`TRUNCATE` survives. -/
theorem reload_failure_per_cell_atomicity (prior : DBState) (fp : FailPoint)
    (h : fp.fails = true) :
    (runReload prior fp).1.content = [] ∧
    ((runReload prior fp).1.catalog = [] ∨
      (runReload prior fp).1.catalog = loadedCatalogRows) := by
  cases fp with
  | noFailure => exact absurd h (by decide)
  | duringCatalogInsert k => exact ⟨rfl, Or.inl rfl⟩
  | duringContentInsert k => exact ⟨rfl, Or.inr rfl⟩

/-- Witness for the amended C1 at the concrete input of the
counterexample. -/
theorem reload_failure_per_cell_atomicity_witness :
    (runReload examplePrior (FailPoint.duringContentInsert 3)).1.content = [] ∧
    ((runReload examplePrior (FailPoint.duringContentInsert 3)).1.catalog = [] ∨
      (runReload examplePrior (FailPoint.duringContentInsert 3)).1.catalog =
        loadedCatalogRows) :=
  reload_failure_per_cell_atomicity examplePrior (FailPoint.duringContentInsert 3) rfl

/-- C5: a destructive reload — `TRUNCATE` of both tables followed by
reinsert of the fixture — completes and leaves exactly 3 rows in
`apg_catalog` and 6 rows in `apg_content`, for every prior database
state. -/
theorem reload_row_counts (prior : DBState) :
    (runReload prior FailPoint.noFailure).2 = true ∧
    (runReload prior FailPoint.noFailure).1.catalog.length = 3 ∧
    (runReload prior FailPoint.noFailure).1.content.length = 6 :=
  ⟨rfl, rfl, rfl⟩

/-- C3: referential integrity of the fixture loaded by the reset notebook.
After every completed reload (3 catalog rows, 6 content rows), each content
row matches exactly one catalog row on
(`document_source`, `document_type`, `document_name`), and the catalog
triples are pairwise distinct, so the triple uniquely identifies a catalog
document. -/
theorem reload_referential_integrity (prior : DBState) :
    (runReload prior FailPoint.noFailure).1.catalog.length = 3 ∧
    (runReload prior FailPoint.noFailure).1.content.length = 6 ∧
    (∀ c ∈ (runReload prior FailPoint.noFailure).1.content,
      ((runReload prior FailPoint.noFailure).1.catalog.filter fun r =>
        r.document_source == c.document_source &&
          r.document_type == c.document_type &&
            r.document_name == c.document_name).length = 1) ∧
    (runReload prior FailPoint.noFailure).1.catalog.Pairwise fun a b =>
      ¬(a.document_source = b.document_source ∧
        a.document_type = b.document_type ∧
          a.document_name = b.document_name) := by
  rw [runReload_catalog, runReload_content]
  decide

/-- C4: in the loaded fixture, the `section_id` values of each document are
pairwise distinct, contiguous and gap-free starting at 0: the two-section
document has ids 0, 1; the one-section document has id 0; the
three-section document has ids 0, 1, 2. -/
theorem reload_section_ids (prior : DBState) :
    sectionIds (runReload prior FailPoint.noFailure).1
        "internal_wiki" "ifrs_standard" "IFRS_15_Revenue" =
      (List.range 2).map Int.ofNat ∧
    sectionIds (runReload prior FailPoint.noFailure).1
        "internal_wiki" "ifrs_standard" "IAS_12_IncomeTaxes" =
      (List.range 1).map Int.ofNat ∧
    sectionIds (runReload prior FailPoint.noFailure).1
        "internal_wiki" "internal_memo" "Q1_2025_Financial_Analysis" =
      (List.range 3).map Int.ofNat ∧
    (sectionIds (runReload prior FailPoint.noFailure).1
        "internal_wiki" "ifrs_standard" "IFRS_15_Revenue").Nodup ∧
    (sectionIds (runReload prior FailPoint.noFailure).1
        "internal_wiki" "ifrs_standard" "IAS_12_IncomeTaxes").Nodup ∧
    (sectionIds (runReload prior FailPoint.noFailure).1
        "internal_wiki" "internal_memo" "Q1_2025_Financial_Analysis").Nodup := by
  unfold sectionIds
  rw [runReload_content]
  decide

/-- C10: the `TRUNCATE ... RESTART IDENTITY CASCADE` of the reset notebook
restarts both `SERIAL` sequences at 1, so after every completed reload the
3 catalog rows receive ids 1, 2, 3 in insertion order (and the 6 content
rows ids 1 through 6), independent of the prior database state. -/
theorem reload_restart_identity (prior : DBState) :
    (truncateRestartIdentityCascade prior).catSeq = 1 ∧
    (truncateRestartIdentityCascade prior).contSeq = 1 ∧
    ((runReload prior FailPoint.noFailure).1.catalog.map fun r => r.id) =
      [1, 2, 3] ∧
    ((runReload prior FailPoint.noFailure).1.catalog.map fun r =>
      r.document_name) =
      ["IFRS_15_Revenue", "IAS_12_IncomeTaxes", "Q1_2025_Financial_Analysis"] ∧
    ((runReload prior FailPoint.noFailure).1.content.map fun r => r.id) =
      [1, 2, 3, 4, 5, 6] :=
  ⟨rfl, rfl, rfl, rfl, rfl⟩

/-- C2: both schema probes (the ALTER TABLE permission probe and the
vector-column creation probe) leave the committed database state unchanged
— in particular table row counts and column sets are the same before and
after — whether or not the probed statement succeeds, because the dedicated
test connection is unconditionally rolled back and closed in the `finally`
block and never commits. -/
theorem probes_preserve_database_state (db : DBState) (canAlter : Bool) :
    (test_alter_table_permission db canAlter).db = db ∧
    (test_vector_column_creation db canAlter).db = db ∧
    (test_alter_table_permission db canAlter).db.catalog.length =
      db.catalog.length ∧
    (test_alter_table_permission db canAlter).db.content.length =
      db.content.length ∧
    (test_alter_table_permission db canAlter).db.catalogColumns =
      db.catalogColumns ∧
    (test_alter_table_permission db canAlter).db.contentColumns =
      db.contentColumns ∧
    (test_vector_column_creation db canAlter).db.catalog.length =
      db.catalog.length ∧
    (test_vector_column_creation db canAlter).db.content.length =
      db.content.length ∧
    (test_vector_column_creation db canAlter).db.catalogColumns =
      db.catalogColumns ∧
    (test_vector_column_creation db canAlter).db.contentColumns =
      db.contentColumns := by
  have ha : (test_alter_table_permission db canAlter).db = db := by
    cases canAlter <;> rfl
  have hv : (test_vector_column_creation db canAlter).db = db := by
    unfold test_vector_column_creation
    cases hvn : vectorNotInstalled db
    · simp only [hvn, Bool.false_eq_true, if_false]
      cases canAlter <;> rfl
    · simp only [hvn, if_true]
  exact ⟨ha, hv, by rw [ha], by rw [ha], by rw [ha], by rw [ha],
    by rw [hv], by rw [hv], by rw [hv], by rw [hv]⟩

/-- C7: when the `vector` extension is unavailable or not installed, the
vector-column creation probe detects it in its pre-check, warns the caller,
leaves the database untouched, and returns without issuing the
`ALTER TABLE ... ADD COLUMN ... vector(2000)` statement. -/
theorem vector_probe_guarded (db : DBState) (canAlter : Bool)
    (h : vectorNotInstalled db = true) :
    (test_vector_column_creation db canAlter).alterIssued = false ∧
    "\n❓ Cannot test vector column creation because the vector extension is not installed."
      ∈ (test_vector_column_creation db canAlter).messages ∧
    "You\u0027ll need to install the extension first with: CREATE EXTENSION vector;"
      ∈ (test_vector_column_creation db canAlter).messages ∧
    (test_vector_column_creation db canAlter).db = db := by
  unfold test_vector_column_creation
  simp only [h, if_true]
  refine ⟨trivial, ?_, ?_, trivial⟩ <;> decide

/-- Witness for C7 at a concrete state: `examplePrior` has no `vector`
extension row, so the probe warns and never issues the ALTER. -/
theorem vector_probe_guarded_witness :
    (test_vector_column_creation examplePrior true).alterIssued = false ∧
    "\n❓ Cannot test vector column creation because the vector extension is not installed."
      ∈ (test_vector_column_creation examplePrior true).messages ∧
    "You\u0027ll need to install the extension first with: CREATE EXTENSION vector;"
      ∈ (test_vector_column_creation examplePrior true).messages ∧
    (test_vector_column_creation examplePrior true).db = examplePrior :=
  vector_probe_guarded examplePrior true rfl

/-- The `ORDER BY` key is transitive. -/
theorem contentSummaryLE_trans (a b c : ContentSummary)
    (hab : contentSummaryLE a b = true) (hbc : contentSummaryLE b c = true) :
    contentSummaryLE a c = true := by
  simp only [contentSummaryLE, Bool.or_eq_true, Bool.and_eq_true,
    decide_eq_true_eq, beq_iff_eq] at hab hbc ⊢
  rcases hab with hab | ⟨hab, hab2⟩
  · rcases hbc with hbc | ⟨hbc, _⟩
    · exact Or.inl (lt_trans hab hbc)
    · exact Or.inl (hbc ▸ hab)
  · rcases hbc with hbc | ⟨hbc, hbc2⟩
    · exact Or.inl (hab ▸ hbc)
    · exact Or.inr ⟨hab.trans hbc, le_trans hab2 hbc2⟩

/-- The `ORDER BY` key is total. -/
theorem contentSummaryLE_total (a b : ContentSummary) :
    contentSummaryLE a b || contentSummaryLE b a := by
  simp only [contentSummaryLE, Bool.or_eq_true, Bool.and_eq_true,
    decide_eq_true_eq, beq_iff_eq]
  rcases lt_trichotomy a.document_name b.document_name with h | h | h
  · exact Or.inl (Or.inl h)
  · rcases Int.le_total a.section_id b.section_id with hi | hi
    · exact Or.inl (Or.inr ⟨h, hi⟩)
    · exact Or.inr (Or.inr ⟨h.symm, hi⟩)
  · exact Or.inr (Or.inl h)

/-- C8: for every database state, the `content_summary_query` of the review notebook
(filter on document_source internal_capm, `ORDER BY document_name,
section_id`) returns exactly the matching `apg_content` rows — a
permutation of the filtered projection — sorted first by `document_name`
and then by `section_id`, ascending. -/
theorem content_summary_query_sorted (db : DBState) :
    (content_summary_query db).Pairwise
      (fun a b => contentSummaryLE a b = true) ∧
    List.Perm (content_summary_query db)
      ((db.content.filter fun c => c.document_source == "internal_capm").map
        contentSummaryOfRow) := by
  constructor
  · exact List.sorted_mergeSort
      (fun a b c hab hbc => contentSummaryLE_trans a b c hab hbc)
      (fun a b => contentSummaryLE_total a b) _
  · exact List.mergeSort_perm _ _

/-- C6: connection parameter resolution for the "local" environment key
yields exactly the documented defaults — host `localhost`, port `5432`,
database `maven-finance` (with user `iris_dev` and empty password). -/
theorem get_db_params_local :
    ∃ p, get_db_params "local" = some p ∧
      p.host = "localhost" ∧ p.port = 5432 ∧ p.dbname = "maven-finance" ∧
      p.user = "iris_dev" ∧ p.password = "" :=
  ⟨_, rfl, rfl, rfl, rfl, rfl, rfl⟩

/-- C9: every shown database operation attempts its connection exactly
once, and on failure surfaces a user-visible message and runs no query —
the CAPM review cell prints "Database connection failed." when
`connect_to_db` hands back nothing and prints the caught error when it
raises, the permissions notebook prints "Failed to connect to database." —
and no path re-attempts the connection. -/
theorem connection_failure_no_retry (err : String) :
    (capm_review_run ConnectOutcome.connected).connectAttempts = 1 ∧
    (capm_review_run ConnectOutcome.returnedNone).connectAttempts = 1 ∧
    (capm_review_run (ConnectOutcome.raised err)).connectAttempts = 1 ∧
    (capm_review_run ConnectOutcome.returnedNone).queriesExecuted = 0 ∧
    "Database connection failed." ∈
      (capm_review_run ConnectOutcome.returnedNone).messages ∧
    (capm_review_run (ConnectOutcome.raised err)).queriesExecuted = 0 ∧
    ("Error while connecting to or querying PostgreSQL: " ++ err) ∈
      (capm_review_run (ConnectOutcome.raised err)).messages ∧
    (∀ b, (test_db_connect_run b).connectAttempts = 1) ∧
    "Failed to connect to database." ∈ (test_db_connect_run false).messages ∧
    (test_db_connect_run false).queriesExecuted = 0 := by
  refine ⟨rfl, rfl, rfl, rfl, by decide, rfl, ?_, fun b => by cases b <;> rfl,
    by decide, rfl⟩
  simp [capm_review_run]

end IrisDb
